import Mathlib

/-
  Verification of the j2gbc Game Boy emulator core against its
  natural-language specification.

  The Rust sources are shallowly embedded: machine integers become Nat with
  explicit masks/mod where overflow matters, fallible operations return
  Option, and in-place mutation becomes explicit state passing.  Components
  of the repository whose sources are not available (the j2ds Timer/Clock
  crate, tile.rs, obj.rs, mem.rs, mmu.rs, alu.rs) are modelled from the
  specification; each such definition carries a doc comment starting with
  "Modelled from the spec:".
-/

set_option maxRecDepth 10000

namespace J2gbc

/-- The five interrupt kinds of `src/src/emu/cpu.rs` (`enum Interrupt`).
Note the source has no Serial variant. -/
inductive Interrupt where
  | vblank
  | lcdc
  | timer
  | controller
deriving Repr, DecidableEq

/-- `Interrupt::is_enabled` from cpu.rs: tests the interrupt's bit in a
register byte (bit 0 VBlank, bit 1 LCDC, bit 2 Timer, bit 4 Controller). -/
def Interrupt.isEnabled (i : Interrupt) (reg : Nat) : Bool :=
  match i with
  | .vblank => reg &&& 0b00000001 != 0
  | .lcdc => reg &&& 0b00000010 != 0
  | .timer => reg &&& 0b00000100 != 0
  | .controller => reg &&& 0b00010000 != 0

/-- `Interrupt::table_address` from cpu.rs: the vector address per kind. -/
def Interrupt.tableAddress (i : Interrupt) : Nat :=
  match i with
  | .vblank => 0x0040
  | .lcdc => 0x0048
  | .timer => 0x0050
  | .controller => 0x0060

/-- Edge events produced by a periodic timer. -/
inductive TimerEvent where
  | rising
  | falling
deriving Repr, DecidableEq

/-- Modelled from the spec: the j2ds `Timer` type is not part of this
repository's sources.  Per §4.5 each LCD event timer tracks a periodic
signal with a rising and a falling edge; `Timer::new(period, off, dur)` is
read as a signal of the given period that is high on the phase window
[off, off+dur).  `last` records the cycle of the most recent `update`. -/
structure Timer where
  period : Nat
  riseOff : Nat
  highDur : Nat
  last : Nat
deriving Repr, DecidableEq

def Timer.new (period off dur : Nat) : Timer :=
  { period := period, riseOff := off, highDur := dur, last := 0 }

/-- Modelled from the spec: whether the periodic signal is high at cycle c. -/
def Timer.isHigh (t : Timer) (c : Nat) : Bool :=
  decide (t.riseOff ≤ c % t.period ∧ c % t.period < t.riseOff + t.highDur)

/-- Modelled from the spec: `Timer::update(c)` advances the timer to cycle c
and reports a rising/falling edge when the signal's level changed since the
previous update. -/
def Timer.update (t : Timer) (c : Nat) : Timer × Option TimerEvent :=
  let t' := { t with last := c }
  if t.isHigh c = t.isHigh t.last then (t', none)
  else (t', some (if t.isHigh c then TimerEvent.rising else TimerEvent.falling))

/-- An RGBA pixel (`struct Pixel` in lcd/mod.rs). -/
structure Pixel where
  r : Nat
  g : Nat
  b : Nat
  a : Nat
deriving Repr, DecidableEq

def colorWhite : Pixel := ⟨234, 255, 186, 255⟩

def colorLightGray : Pixel := ⟨150, 187, 146, 255⟩

def colorDarkGray : Pixel := ⟨68, 106, 81, 255⟩

def colorBlack : Pixel := ⟨0, 14, 2, 255⟩

def COLORS : List Pixel := [colorWhite, colorLightGray, colorDarkGray, colorBlack]

/-- `palette_convert` from lcd/mod.rs: `(p >> (v*2)) & 0b11`. -/
def paletteConvert (v p : Nat) : Nat :=
  (p >>> (v * 2)) &&& 0b11

/-- Modelled from the spec: byte store with range check (`Ram` of mem.rs,
which is not in src/): read out of range fails. -/
def ramRead (d : List Nat) (i : Nat) : Option Nat :=
  d.get? i

/-- Modelled from the spec: write with range check; out of range fails. -/
def ramWrite (d : List Nat) (i v : Nat) : Option (List Nat) :=
  if i < d.length then some (d.set i v) else none

/-- A decoded 8x8 tile: per-row lists of 8 color indices in 0..3
(`MonoTile` of lcd/tile.rs, which is not in src/). -/
structure MonoTile where
  rows : List (List Nat)
deriving Repr, DecidableEq

def MonoTile.new : MonoTile :=
  ⟨List.replicate 8 (List.replicate 8 0)⟩

/-- Modelled from the spec: lcd/tile.rs is not in src/.  §3: a tile row is
stored as two bytes with the bit planes interleaved; the decoded row holds
8 values in 0..3, pixel x taking its low bit from bit 7−x of the first byte
and its high bit from bit 7−x of the second byte. -/
def decodeTileRow (b1 b2 : Nat) : List Nat :=
  (List.range 8).map (fun x => (b1 >>> (7 - x)) % 2 + 2 * ((b2 >>> (7 - x)) % 2))

/-- Modelled from the spec: `MonoTile::update_row` re-decodes one row from
its two freshly written bytes. -/
def MonoTile.updateRow (t : MonoTile) (r b1 b2 : Nat) : MonoTile :=
  ⟨t.rows.set r (decodeTileRow b1 b2)⟩

/-- Modelled from the spec: `MonoTile::read_row` returns the decoded row. -/
def MonoTile.readRow (t : MonoTile) (r : Nat) : List Nat :=
  t.rows.getD r (List.replicate 8 0)

/-- An OAM sprite record (`Obj` of lcd/obj.rs, which is not in src/):
4 bytes y, x, tile index, flags. -/
structure Obj where
  y : Nat
  x : Nat
  char : Nat
  flags : Nat
deriving Repr, DecidableEq

/-- Modelled from the spec: lcd/obj.rs is not in src/.  §3 lists the flag
bits in order priority, y-flip, x-flip, palette selector; they are mapped
to bits 7,6,5,4 of the flags byte. -/
def Obj.priority (o : Obj) : Bool := o.flags &&& 0b10000000 != 0

def Obj.yflip (o : Obj) : Bool := o.flags &&& 0b01000000 != 0

def Obj.xflip (o : Obj) : Bool := o.flags &&& 0b00100000 != 0

def Obj.highPalette (o : Obj) : Bool := o.flags &&& 0b00010000 != 0

/-- `CLOCK_RATE` from cpu.rs. -/
def CLOCK_RATE : Nat := 4190000

/-- `LINE_CYCLE_TIME` from lcd/mod.rs (integer arithmetic, = 455). -/
def LINE_CYCLE_TIME : Nat := CLOCK_RATE * 108700 / 1000000000

/-- `HBLANK_DURATION` from lcd/mod.rs (= 203). -/
def HBLANK_DURATION : Nat := CLOCK_RATE * 48600 / 1000000000

/-- `MODE_10_DURATION` from lcd/mod.rs (= 79). -/
def MODE_10_DURATION : Nat := CLOCK_RATE * 19000 / 1000000000

/-- `VBLANK_DURATION` from lcd/mod.rs. -/
def VBLANK_DURATION : Nat := LINE_CYCLE_TIME * 10

/-- `SCREEN_CYCLE_TIME` from lcd/mod.rs. -/
def SCREEN_CYCLE_TIME : Nat := 154 * LINE_CYCLE_TIME

/-- The LCD state (`struct Lcd` in lcd/mod.rs).  The two framebuffers are
kept as separate fields `fbs0`/`fbs1`; `fbi` selects the front buffer. -/
structure Lcd where
  lcdc : Nat
  stat : Nat
  bgp : Nat
  obp0 : Nat
  obp1 : Nat
  wx : Nat
  wy : Nat
  sx : Nat
  sy : Nat
  lyc : Nat
  ly : Nat
  cdata : List Nat
  bgdd1 : List Nat
  bgdd2 : List Nat
  oam : List Nat
  fbs0 : List (List Pixel)
  fbs1 : List (List Pixel)
  fbi : Nat
  hblankTimer : Timer
  vblankTimer : Timer
  mode10Timer : Timer
  runningUntilCycle : Nat
  tiles : List MonoTile
  objs : List Obj
deriving DecidableEq

/-- `Lcd::new` from lcd/mod.rs. -/
def Lcd.new : Lcd :=
  { lcdc := 0x83
    stat := 0
    bgp := 0
    obp0 := 0
    obp1 := 0
    wx := 0
    wy := 0
    sx := 0
    sy := 0
    lyc := 0
    ly := 0
    cdata := List.replicate 0x1800 0
    bgdd1 := List.replicate 0x400 0
    bgdd2 := List.replicate 0x400 0
    oam := List.replicate 0xA0 0
    fbs0 := List.replicate 144 (List.replicate 160 colorWhite)
    fbs1 := List.replicate 144 (List.replicate 160 colorWhite)
    fbi := 0
    hblankTimer :=
      Timer.new LINE_CYCLE_TIME (LINE_CYCLE_TIME - HBLANK_DURATION - MODE_10_DURATION)
        HBLANK_DURATION
    vblankTimer := Timer.new SCREEN_CYCLE_TIME (144 * LINE_CYCLE_TIME) VBLANK_DURATION
    mode10Timer := Timer.new LINE_CYCLE_TIME (LINE_CYCLE_TIME - HBLANK_DURATION) HBLANK_DURATION
    runningUntilCycle := 0
    tiles := List.replicate 384 MonoTile.new
    objs := List.replicate 40 ⟨0, 0, 0, 0⟩ }

/-- `Lcd::get_framebuffer`: the front buffer selected by `fbi`. -/
def Lcd.getFramebuffer (s : Lcd) : List (List Pixel) :=
  if s.fbi = 0 then s.fbs0 else s.fbs1

/-- `Lcd::get_back_framebuffer` (read part). -/
def Lcd.backFb (s : Lcd) : List (List Pixel) :=
  if s.fbi = 0 then s.fbs1 else s.fbs0

/-- Writing through `Lcd::get_back_framebuffer`. -/
def Lcd.setBackFb (s : Lcd) (fb : List (List Pixel)) : Lcd :=
  if s.fbi = 0 then { s with fbs1 := fb } else { s with fbs0 := fb }

/-- `Lcd::swap`: toggle which framebuffer is the front buffer. -/
def Lcd.swap (s : Lcd) : Lcd :=
  if s.fbi = 0 then { s with fbi := 1 } else { s with fbi := 0 }

/-- `Lcd::read` (the `MemDevice` impl in lcd/mod.rs): VRAM/OAM plus the LCD
registers; BGP is write-only (reading it is an error) and unimplemented
registers are errors. -/
def Lcd.read (s : Lcd) (a : Nat) : Option Nat :=
  if 0x9800 ≤ a ∧ a < 0x9C00 then ramRead s.bgdd1 (a - 0x9800)
  else if 0x9C00 ≤ a ∧ a < 0xA000 then ramRead s.bgdd2 (a - 0x9C00)
  else if 0x8000 ≤ a ∧ a < 0x9800 then ramRead s.cdata (a - 0x8000)
  else if 0xFE00 ≤ a ∧ a < 0xFEA0 then ramRead s.oam (a - 0xFE00)
  else if a = 0xFF44 then some s.ly
  else if a = 0xFF45 then some s.lyc
  else if a = 0xFF41 then some s.stat
  else if a = 0xFF40 then some s.lcdc
  else if a = 0xFF48 then some s.obp0
  else if a = 0xFF49 then some s.obp1
  else if a = 0xFF4B then some s.wx
  else if a = 0xFF4A then some s.wy
  else if a = 0xFF43 then some s.sx
  else if a = 0xFF42 then some s.sy
  else none

/-- `Lcd::read_obj`: decode the 4 OAM bytes of sprite `index`. -/
def Lcd.readObj (s : Lcd) (index : Nat) : Obj :=
  { y := s.oam.getD (index * 4) 0
    x := s.oam.getD (index * 4 + 1) 0
    char := s.oam.getD (index * 4 + 2) 0
    flags := s.oam.getD (index * 4 + 3) 0 }

/-- `Lcd::update_tile_at`: re-decode the tile row containing the (even)
character-data address `a`, reading both freshly stored plane bytes. -/
def Lcd.updateTileAt (s : Lcd) (a : Nat) : Lcd :=
  let byteOff := a - 0x8000
  let charOff := byteOff / 16
  let rowOff := byteOff % 16 / 2
  let b1 := s.cdata.getD byteOff 0
  let b2 := s.cdata.getD (byteOff + 1) 0
  { s with tiles := s.tiles.set charOff ((s.tiles.getD charOff MonoTile.new).updateRow rowOff b1 b2) }

/-- `Lcd::update_obj_at`: refresh the cached sprite record for the OAM
address `a`. -/
def Lcd.updateObjAt (s : Lcd) (a : Nat) : Lcd :=
  let byteOff := a - 0xFE00
  let objIndex := byteOff / 4
  { s with objs := s.objs.set objIndex (s.readObj objIndex) }

/-- `Lcd::write` (the `MemDevice` impl): VRAM writes into tile data refresh
the decoded tile immediately, OAM writes refresh the cached sprite; LY is
read-only (writing is an error); unimplemented registers are errors. -/
def Lcd.write (s : Lcd) (a v : Nat) : Option Lcd :=
  if 0x9800 ≤ a ∧ a < 0x9C00 then
    (ramWrite s.bgdd1 (a - 0x9800) v).map (fun d => { s with bgdd1 := d })
  else if 0x9C00 ≤ a ∧ a < 0xA000 then
    (ramWrite s.bgdd2 (a - 0x9C00) v).map (fun d => { s with bgdd2 := d })
  else if 0x8000 ≤ a ∧ a < 0x9800 then
    (ramWrite s.cdata (a - 0x8000) v).map
      (fun d => Lcd.updateTileAt { s with cdata := d } (a - a % 2))
  else if 0xFE00 ≤ a ∧ a < 0xFEA0 then
    (ramWrite s.oam (a - 0xFE00) v).map (fun d => Lcd.updateObjAt { s with oam := d } a)
  else if a = 0xFF44 then none
  else if a = 0xFF45 then some { s with lyc := v }
  else if a = 0xFF40 then some { s with lcdc := v }
  else if a = 0xFF41 then some { s with stat := v }
  else if a = 0xFF47 then some { s with bgp := v }
  else if a = 0xFF48 then some { s with obp0 := v }
  else if a = 0xFF49 then some { s with obp1 := v }
  else if a = 0xFF4B then some { s with wx := v }
  else if a = 0xFF4A then some { s with wy := v }
  else if a = 0xFF43 then some { s with sx := v }
  else if a = 0xFF42 then some { s with sy := v }
  else none

/-- `Lcd::read_char_row_at`: fetch a decoded tile row, with signed tile
indexing (tiles 256±) when the BG character-data flag selects it. -/
def Lcd.readCharRowAt (s : Lcd) (ch row : Nat) (signed : Bool) : List Nat :=
  let index := if signed then (if ch < 128 then ch + 256 else ch) else ch
  if row ≥ 8 then (s.tiles.getD (index + 1) MonoTile.new).readRow (row - 8)
  else (s.tiles.getD index MonoTile.new).readRow row

/-- `Lcd::get_bg_char_addr_start`: true selects signed tile indexing. -/
def Lcd.bgCharAddrSigned (s : Lcd) : Bool :=
  s.lcdc &&& 0b00010000 == 0

/-- `Lcd::get_bg_code_dat_start`. -/
def Lcd.bgCodeDatStart (s : Lcd) : Nat :=
  if s.lcdc &&& 0b00001000 == 0 then 0x9800 else 0x9C00

/-- `Lcd::get_window_code_dat_start`. -/
def Lcd.windowCodeDatStart (s : Lcd) : Nat :=
  if s.lcdc &&& 0b01000000 == 0 then 0x9800 else 0x9C00

/-- `Lcd::render_tile_row`: rasterize one 160-pixel row from the background
map starting at `codeDatStart`, scrolled by (scx, scy). -/
def Lcd.renderTileRow (s : Lcd) (screenY scx scy codeDatStart : Nat) : List Pixel :=
  (List.range 160).map (fun screenX =>
    let ty := (screenY + scy) % 256
    let tx := (screenX + scx) % 256
    let charYOffset := ty / 8 * 32
    let charOffset := (tx / 8 + charYOffset) % 65536
    let charAddr := (codeDatStart + charOffset) % 65536
    let ch := (s.read charAddr).getD 0
    let charRow := s.readCharRowAt ch (ty % 8) s.bgCharAddrSigned
    let colorIndex := charRow.getD (tx % 8) 0
    COLORS.getD (paletteConvert colorIndex s.bgp) colorWhite)

/-- `Lcd::render_background_row`. -/
def Lcd.renderBackgroundRow (s : Lcd) : Lcd :=
  if s.lcdc &&& 0b00000001 == 0 then s
  else
    let row := s.renderTileRow s.ly s.sx s.sy s.bgCodeDatStart
    s.setBackFb (s.backFb.set s.ly row)

/-- `Lcd::render_window_row`. -/
def Lcd.renderWindowRow (s : Lcd) : Lcd :=
  if s.lcdc &&& 0b00100000 == 0 then s
  else
    let adjustedWx := max s.wx 7 - 7
    if s.wy > s.ly ∨ adjustedWx ≥ 160 then s
    else
      let translatedY := s.ly - s.wy
      let row := s.renderTileRow translatedY 0 0 s.windowCodeDatStart
      let oldRow := s.backFb.getD s.ly (List.replicate 160 colorWhite)
      let newRow := (List.range 160).map (fun x =>
        if adjustedWx ≤ x then row.getD x colorWhite else oldRow.getD x colorWhite)
      s.setBackFb (s.backFb.set s.ly newRow)

/-- One sprite pixel of `Lcd::render_oam_row`: transparency, palette and
priority handling for pixel x of the sprite row. -/
def Lcd.renderObjPixel (st : Lcd) (o : Obj) (row : List Nat) (fy x : Nat) : Lcd :=
  let fullX : Int := (x : Int) + (o.x : Int) - 8
  if fullX ≥ 160 ∨ fullX < 0 then st
  else
    let indexX := if o.xflip then 7 - x else x
    let colorIndex := row.getD indexX 0
    if colorIndex = 0 then st
    else
      let pal := if o.highPalette then st.obp1 else st.obp0
      let color := COLORS.getD (paletteConvert colorIndex pal) colorWhite
      let curRow := st.backFb.getD fy (List.replicate 160 colorWhite)
      if o.priority = false ∨ curRow.getD fullX.toNat colorWhite = colorWhite then
        st.setBackFb (st.backFb.set fy (curRow.set fullX.toNat color))
      else st

/-- One sprite scan row of `Lcd::render_oam_row`: skip rows not landing on
the current scanline, apply y-flip, then draw the 8 pixels. -/
def Lcd.renderObjRow (st : Lcd) (o : Obj) (ch hiY y : Nat) : Lcd :=
  let fullY : Int := (y : Int) + (o.y : Int) - 16
  if fullY > 144 ∨ fullY < 0 ∨ fullY ≠ (st.ly : Int) then st
  else
    let indexY := if o.yflip then hiY - 1 - y else y
    let row := st.readCharRowAt ch indexY false
    (List.range 8).foldl (fun st2 x => st2.renderObjPixel o row fullY.toNat x) st

/-- One sprite of `Lcd::render_oam_row`: tall-sprite handling then the row
loop. -/
def Lcd.renderObj (st : Lcd) (o : Obj) : Lcd :=
  let p := if st.lcdc &&& 0b00000100 != 0 then (o.char &&& 0b11111110, 16) else (o.char, 8)
  (List.range p.2).foldl (fun st2 y => st2.renderObjRow o p.1 p.2 y) st

/-- `Lcd::render_oam_row`. -/
def Lcd.renderOamRow (s : Lcd) : Lcd :=
  if s.lcdc &&& 0b00000010 == 0 then s
  else (List.range 40).foldl (fun st i => st.renderObj (st.objs.getD i ⟨0, 0, 0, 0⟩)) s

/-- `Lcd::should_render_this_frame`: skip rendering when running more than
two frames ahead of the requested horizon. -/
def Lcd.shouldRenderThisFrame (s : Lcd) (cycle : Nat) : Bool :=
  decide (cycle ≥ s.runningUntilCycle ∨ s.runningUntilCycle - cycle ≤ 2 * SCREEN_CYCLE_TIME)

/-- `Lcd::update_lyc`: set or clear the LYC-match bit of STAT. -/
def Lcd.updateLyc (s : Lcd) : Lcd :=
  if s.ly = s.lyc then { s with stat := s.stat ||| 0b00000100 }
  else { s with stat := s.stat &&& 0b11111011 }

/-- `Lcd::do_hblank_start`: on visible lines, render the scanline (unless
skipping ahead) and set STAT mode to 00. -/
def Lcd.doHblankStart (s : Lcd) (cycle : Nat) : Lcd :=
  if s.ly < 144 then
    let s1 := if s.shouldRenderThisFrame cycle
      then s.renderBackgroundRow.renderWindowRow.renderOamRow else s
    { s1 with stat := s1.stat &&& 0b11111100 ||| 0b00 }
  else s

/-- `Lcd::do_hblank_end`: advance LY and refresh the LYC-match bit. -/
def Lcd.doHblankEnd (s : Lcd) : Lcd :=
  Lcd.updateLyc { s with ly := (s.ly + 1) % 256 }

/-- `Lcd::do_vblank_start`: swap framebuffers, advance LY, set mode 01. -/
def Lcd.doVblankStart (s : Lcd) : Lcd :=
  let s1 := s.swap
  let s2 := Lcd.updateLyc { s1 with ly := (s1.ly + 1) % 256 }
  { s2 with stat := s2.stat &&& 0b11111100 ||| 0b01 }

/-- `Lcd::do_vblank_end`: reset LY to 0, refresh LYC-match, set mode 00. -/
def Lcd.doVblankEnd (s : Lcd) : Lcd :=
  let s1 := Lcd.updateLyc { s with ly := 0 }
  { s1 with stat := s1.stat &&& 0b11111100 ||| 0b00 }

/-- The vblank-timer arm of `Lcd::pump_cycle` (the third and last match). -/
def Lcd.pumpVblank (s0 : Lcd) (c : Nat) : Option Interrupt × Lcd :=
  let p := s0.vblankTimer.update c
  let s := { s0 with vblankTimer := p.1 }
  match p.2 with
  | some TimerEvent.rising => (some Interrupt.vblank, s.doVblankStart)
  | some TimerEvent.falling =>
    let s1 := s.doVblankEnd
    if s1.ly = s1.lyc ∧ s1.stat &&& 0b01000000 ≠ 0 then (some Interrupt.lcdc, s1)
    else (none, s1)
  | none => (none, s)

/-- The mode10-timer arm of `Lcd::pump_cycle` (the second match). -/
def Lcd.pumpMode10 (s0 : Lcd) (c : Nat) : Option Interrupt × Lcd :=
  let p := s0.mode10Timer.update c
  let s := { s0 with mode10Timer := p.1 }
  match p.2 with
  | some TimerEvent.rising =>
    let s1 := { s with stat := s.stat &&& 0b11111100 ||| 0b10 }
    if s1.stat &&& 0b00100000 ≠ 0 then (some Interrupt.lcdc, s1)
    else s1.pumpVblank c
  | some TimerEvent.falling =>
    Lcd.pumpVblank { s with stat := s.stat &&& 0b11111100 ||| 0b00 } c
  | none => s.pumpVblank c

/-- `Lcd::pump_cycle`: update the hblank timer first, returning immediately
when its edge raises an enabled interrupt; otherwise fall through to the
mode10 and then the vblank timer. -/
def Lcd.pumpCycle (s0 : Lcd) (c : Nat) : Option Interrupt × Lcd :=
  let p := s0.hblankTimer.update c
  let s := { s0 with hblankTimer := p.1 }
  match p.2 with
  | some TimerEvent.rising =>
    let s1 := s.doHblankStart c
    if s1.stat &&& 0b00001000 ≠ 0 ∧ s1.ly < 144 then (some Interrupt.lcdc, s1)
    else s1.pumpMode10 c
  | some TimerEvent.falling =>
    let s1 := s.doHblankEnd
    if s1.ly = s1.lyc ∧ s1.stat &&& 0b01000000 ≠ 0 then (some Interrupt.lcdc, s1)
    else s1.pumpMode10 c
  | none => s.pumpMode10 c

/-- The banking-free cartridge MBC (`struct Mbc0` in mbc/mbc0.rs): direct
ROM reads and direct external-RAM access. -/
structure Mbc0 where
  rom : List Nat
  ram : List Nat
deriving Repr, DecidableEq

/-- `Mbc0::new`: external RAM sized to the 0xA000–0xBFFF range.  The range
constants live in mem.rs, which is not in src/; the spec (§3) gives
external RAM as 0xA000–0xBFFF and the MBC ROM range as 0x0000–0x7FFF. -/
def Mbc0.new (rom : List Nat) : Mbc0 :=
  { rom := rom, ram := List.replicate 0x2000 0 }

/-- `Mbc0::read` (the `MemDevice` impl): ROM reads are direct, external-RAM
reads go to the RAM store, anything else is a bus error. -/
def Mbc0.read (m : Mbc0) (a : Nat) : Option Nat :=
  if a < 0x8000 then m.rom.get? a
  else if 0xA000 ≤ a ∧ a < 0xC000 then ramRead m.ram (a - 0xA000)
  else none

/-- `Mbc0::write`: only external RAM is writable; writes to ROM addresses
are bus errors. -/
def Mbc0.write (m : Mbc0) (a v : Nat) : Option Mbc0 :=
  if 0xA000 ≤ a ∧ a < 0xC000 then (ramWrite m.ram (a - 0xA000) v).map (fun d => { m with ram := d })
  else none

/-- `Mbc0::get_sram` (the `snapshot_sram` accessor): the raw external-RAM
bytes. -/
def Mbc0.getSram (m : Mbc0) : List Nat :=
  m.ram

/-- `Mbc0::set_sram` (the `restore_sram` entry): copy the buffer over the
prefix of the external RAM (`clone_from_slice`). -/
def Mbc0.setSram (m : Mbc0) (buf : List Nat) : Mbc0 :=
  { m with ram := buf ++ m.ram.drop buf.length }

/-- Modelled from the spec: the MMU of the early core (src/src/emu/mem.rs is
not in src/).  §4.4 routes 0x0000–0x7FFF and 0xA000–0xBFFF to the cartridge
MBC, 0x8000–0x9FFF and 0xFE00–0xFE9F and 0xFF40–0xFF4B to the LCD,
0xC000–0xDFFF to work RAM with 0xE000–0xFDFF echoing it, 0xFF80–0xFFFE to
high RAM and 0xFFFF to the interrupt-enable register.  The joypad, timer
and audio registers are not needed by the claims and are left unmapped. -/
structure Mmu where
  cart : Mbc0
  lcd : Lcd
  wram : List Nat
  hram : List Nat
  interruptEnable : Nat
deriving DecidableEq

/-- Modelled from the spec: MMU construction with zeroed RAM and IE=0. -/
def Mmu.new (cart : Mbc0) : Mmu :=
  { cart := cart
    lcd := Lcd.new
    wram := List.replicate 0x2000 0
    hram := List.replicate 0x7F 0
    interruptEnable := 0 }

/-- Modelled from the spec: MMU read routing (§4.4). -/
def Mmu.read (m : Mmu) (a : Nat) : Option Nat :=
  if a < 0x8000 then m.cart.read a
  else if a < 0xA000 then m.lcd.read a
  else if a < 0xC000 then m.cart.read a
  else if a < 0xE000 then ramRead m.wram (a - 0xC000)
  else if a < 0xFE00 then ramRead m.wram (a - 0xE000)
  else if a < 0xFEA0 then m.lcd.read a
  else if 0xFF40 ≤ a ∧ a ≤ 0xFF4B then m.lcd.read a
  else if 0xFF80 ≤ a ∧ a < 0xFFFF then ramRead m.hram (a - 0xFF80)
  else if a = 0xFFFF then some m.interruptEnable
  else none

/-- Modelled from the spec: MMU write routing (§4.4). -/
def Mmu.write (m : Mmu) (a v : Nat) : Option Mmu :=
  if a < 0x8000 then (m.cart.write a v).map (fun c => { m with cart := c })
  else if a < 0xA000 then (m.lcd.write a v).map (fun l => { m with lcd := l })
  else if a < 0xC000 then (m.cart.write a v).map (fun c => { m with cart := c })
  else if a < 0xE000 then (ramWrite m.wram (a - 0xC000) v).map (fun d => { m with wram := d })
  else if a < 0xFE00 then (ramWrite m.wram (a - 0xE000) v).map (fun d => { m with wram := d })
  else if a < 0xFEA0 then (m.lcd.write a v).map (fun l => { m with lcd := l })
  else if 0xFF40 ≤ a ∧ a ≤ 0xFF4B then (m.lcd.write a v).map (fun l => { m with lcd := l })
  else if 0xFF80 ≤ a ∧ a < 0xFFFF then
    (ramWrite m.hram (a - 0xFF80) v).map (fun d => { m with hram := d })
  else if a = 0xFFFF then some { m with interruptEnable := v }
  else none

/-- Modelled from the spec: `Mmu::read16` is little-endian — low byte at a,
high byte at a+1 (§4.4); address arithmetic wraps modulo 2^16 (§3). -/
def Mmu.read16 (m : Mmu) (a : Nat) : Option Nat :=
  match m.read a, m.read ((a + 1) % 65536) with
  | some lo, some hi => some (hi * 256 + lo)
  | _, _ => none

/-- Modelled from the spec: `Mmu::write16`, low byte first; on failure the
state reached so far is kept (mirroring in-place mutation) and the Bool
reports success. -/
def Mmu.write16 (m : Mmu) (a v : Nat) : Mmu × Bool :=
  match m.write a (v % 256) with
  | none => (m, false)
  | some m1 =>
    match m1.write ((a + 1) % 65536) (v / 256 % 256) with
    | none => (m1, false)
    | some m2 => (m2, true)

/-- The eight 8-bit registers of `src/src/emu/cpu.rs`, in array order. -/
inductive Register8 where
  | A
  | B
  | C
  | D
  | E
  | H
  | L
  | F
deriving Repr, DecidableEq

/-- The array index of each 8-bit register (`#[repr(u8)]` order). -/
def Register8.idx : Register8 → Nat
  | .A => 0
  | .B => 1
  | .C => 2
  | .D => 3
  | .E => 4
  | .H => 5
  | .L => 6
  | .F => 7

/-- The 16-bit register names of cpu.rs. -/
inductive Register16 where
  | AF
  | BC
  | DE
  | HL
  | SP
  | PC
deriving Repr, DecidableEq

/-- The CPU state (`struct Cpu` in src/src/emu/cpu.rs).  The diagnostic
ring buffer of recent instructions is omitted; no claim concerns it. -/
structure Cpu where
  regs : List Nat
  pc : Nat
  sp : Nat
  mmu : Mmu
  cycle : Nat
  interruptMasterEnable : Bool
  halted : Bool
deriving DecidableEq

/-- `Cpu::new`: all eight 8-bit registers zero, SP=0xFFFE, PC=0x100,
cycle 0, IME off, not halted. -/
def Cpu.new (c : Mbc0) : Cpu :=
  { regs := [0, 0, 0, 0, 0, 0, 0, 0]
    pc := 0x100
    sp := 0xFFFE
    mmu := Mmu.new c
    cycle := 0
    interruptMasterEnable := false
    halted := false }

/-- Register-file indexing (the `Index<Register8>` impl). -/
def Cpu.reg (cpu : Cpu) (r : Register8) : Nat :=
  cpu.regs.getD r.idx 0

/-- Modelled from the spec: `hi_lo` of alu.rs (not in src/) combines a high
and a low byte into a 16-bit value. -/
def hiLo (h l : Nat) : Nat :=
  h * 256 + l

/-- `Cpu::read_r16`: the pseudo 16-bit registers are views over register
pairs; SP and PC are their own storage. -/
def Cpu.readR16 (cpu : Cpu) : Register16 → Nat
  | .AF => hiLo (cpu.reg .A) (cpu.reg .F)
  | .BC => hiLo (cpu.reg .B) (cpu.reg .C)
  | .DE => hiLo (cpu.reg .D) (cpu.reg .E)
  | .HL => hiLo (cpu.reg .H) (cpu.reg .L)
  | .SP => cpu.sp
  | .PC => cpu.pc

/-- `Cpu::handle_interrupt`: when IME is set and the interrupt's IE bit is
enabled, push PC at SP-2 and load PC from the 16-bit value stored at the
vector address; in every case that completes, leave the halted state.  The
Bool is the `Result`: false when a push or vector read raised a bus error,
in which case the function returned early and `halted` is untouched. -/
def Cpu.handleInterrupt (cpu : Cpu) (i : Interrupt) : Cpu × Bool :=
  if cpu.interruptMasterEnable && i.isEnabled cpu.mmu.interruptEnable then
    match cpu.mmu.write16 ((cpu.sp + 65534) % 65536) cpu.pc with
    | (m1, false) => ({ cpu with mmu := m1 }, false)
    | (m1, true) =>
      match m1.read16 i.tableAddress with
      | none => ({ cpu with mmu := m1, sp := (cpu.sp + 65534) % 65536 }, false)
      | some v =>
        ({ cpu with mmu := m1, sp := (cpu.sp + 65534) % 65536, pc := v, halted := false }, true)
  else ({ cpu with halted := false }, true)

/-- Modelled from the spec: the j2ds `Clock` type is not in src/; per §4.6
it fires every `period` ticks. -/
structure Clock where
  period : Nat
  count : Nat
deriving Repr, DecidableEq

def Clock.new (p : Nat) : Clock :=
  { period := p, count := 0 }

/-- Modelled from the spec: one tick of a j2ds Clock; fires (returns true)
on every `period`-th tick. -/
def Clock.tick (c : Clock) : Clock × Bool :=
  if c.count + 1 ≥ c.period then ({ c with count := 0 }, true)
  else ({ c with count := c.count + 1 }, false)

/-- The duty waveform table of audio/square.rs, as exact rationals. -/
def dutyValues : List (List ℚ) :=
  [[-1, -1, -1, -1, -1, -1, -1, 1],
   [1, -1, -1, -1, -1, -1, -1, 1],
   [1, -1, -1, -1, -1, 1, 1, 1],
   [-1, 1, 1, 1, 1, 1, 1, -1]]

/-- The square-wave channel state (`struct SquareChannel` in
audio/square.rs). -/
structure SquareChannel where
  period : Nat
  dutyCycle : Nat
  useLen : Bool
  len : Nat
  lastCpuCycle : Nat
  dutyCycleStep : Nat
  dutyCycleStepTimer : Timer
  dutyCycleStepTimerOffset : Nat
  vol : Nat
  volOrig : Nat
  volEnvIncrement : Bool
  volCounter : Clock
  frequency : Nat
  frequencyShift : Nat
  frequencyIncrement : Bool
  frequencySweepCounter : Clock
deriving Repr, DecidableEq

/-- `SquareChannel::new`. -/
def SquareChannel.new : SquareChannel :=
  { period := 0
    dutyCycle := 0
    useLen := false
    len := 0
    lastCpuCycle := 0
    dutyCycleStep := 0
    dutyCycleStepTimer := Timer.new 1 0 0
    dutyCycleStepTimerOffset := 0
    vol := 0
    volOrig := 0
    volEnvIncrement := false
    volCounter := Clock.new 0
    frequency := 0
    frequencyShift := 0
    frequencyIncrement := false
    frequencySweepCounter := Clock.new 0 }

/-- `SquareChannel::is_active`: inactive exactly when the length counter is
in use and has reached zero. -/
def SquareChannel.isActive (s : SquareChannel) : Bool :=
  !s.useLen || decide (0 < s.len)

/-- `SquareChannel::update_from_frequency`: for frequencies up to 2048 the
period becomes `4 * (2048 - frequency)` and the duty timer restarts. -/
def SquareChannel.updateFromFrequency (s : SquareChannel) : SquareChannel :=
  if s.frequency ≤ 2048 then
    { s with
      period := 4 * (2048 - s.frequency)
      dutyCycleStepTimer := Timer.new (4 * (2048 - s.frequency)) 0 0
      dutyCycleStepTimerOffset := s.lastCpuCycle }
  else s

/-- `SquareChannel::set_frequency_from_bits`: the 11-bit frequency from its
high and low register bytes. -/
def SquareChannel.setFrequencyFromBits (s : SquareChannel) (hi lo : Nat) : SquareChannel :=
  SquareChannel.updateFromFrequency { s with frequency := ((hi &&& 0b111) <<< 8) ||| lo % 256 }

/-- `SquareChannel::decrement_length`. -/
def SquareChannel.decrementLength (s : SquareChannel) : SquareChannel :=
  if 0 < s.len then { s with len := s.len - 1 } else s

/-- `SquareChannel::update_length`: the register loads 64 − len. -/
def SquareChannel.updateLength (s : SquareChannel) (len : Nat) : SquareChannel :=
  { s with len := 64 - len }

/-- `SquareChannel::volume_env_update`: when the envelope clock fires,
increment the volume if the direction is increment and the volume is below
15, otherwise decrement it unless it is zero. -/
def SquareChannel.volumeEnvUpdate (s : SquareChannel) : SquareChannel :=
  if s.volCounter.period = 0 then s
  else
    let p := s.volCounter.tick
    let s1 := { s with volCounter := p.1 }
    if p.2 then
      if s1.volEnvIncrement ∧ s1.vol < 15 then { s1 with vol := s1.vol + 1 }
      else if s1.vol ≠ 0 then { s1 with vol := s1.vol - 1 }
      else s1
    else s1

/-- `SquareChannel::freq_sweep_update`: when the sweep clock fires, add or
subtract `frequency >> shift`, clamping an increment at 2049 and skipping a
decrement when the shift is zero or the operand exceeds the frequency. -/
def SquareChannel.freqSweepUpdate (s : SquareChannel) : SquareChannel :=
  if s.frequencySweepCounter.period = 0 then s
  else
    let p := s.frequencySweepCounter.tick
    let s1 := { s with frequencySweepCounter := p.1 }
    if p.2 then
      let operand := s1.frequency >>> s1.frequencyShift
      let newF :=
        if s1.frequencyIncrement then min (s1.frequency + operand) 2049
        else if s1.frequencyShift ≠ 0 ∧ operand ≤ s1.frequency then s1.frequency - operand
        else s1.frequency
      SquareChannel.updateFromFrequency { s1 with frequency := newF }
    else s1

/-- `SquareChannel::sample`: zero when the period is zero, the frequency
exceeds 2048, or the channel is inactive; otherwise the duty waveform value
scaled by vol/15.  The duty-step advance loop runs over the j2ds timer,
which is not in src/; it is modelled from the spec (§4.6): advance the duty
step by (cycle − offset) / period steps mod 8. -/
def SquareChannel.sample (s : SquareChannel) (cpuCycle : Nat) : ℚ × SquareChannel :=
  if s.period = 0 ∨ 2048 < s.frequency ∨ s.isActive = false then (0, s)
  else
    let s1 := { s with lastCpuCycle := cpuCycle }
    let steps := (cpuCycle - s1.dutyCycleStepTimerOffset) / s1.period
    let s2 := { s1 with dutyCycleStep := (s1.dutyCycleStep + steps) % 8 }
    ((dutyValues.getD s2.dutyCycle []).getD s2.dutyCycleStep 0 * ((s2.vol : ℚ) / 15), s2)

/-- A combined projection of the LCD fields that the scanline renderers
never touch: rendering writes only into the back framebuffer. -/
def lcdCore (s : Lcd) : Nat × Nat × Nat × Timer × Timer :=
  (s.ly, s.stat, s.fbi, s.vblankTimer, s.mode10Timer)

/-- A small all-zero cartridge used as concrete input for the C1 claim. -/
def c1cart : Mbc0 := Mbc0.new (List.replicate 0x80 0)

/-- Concrete CPU state for C1: IME on, VBlank enabled in IE, SP in work RAM
so the interrupt push succeeds.  The work RAM is kept small (the push lands
at offset 0x0E) so the state evaluates cheaply. -/
def c1cpu : Cpu :=
  { Cpu.new c1cart with
    pc := 0x1234
    sp := 0xC010
    interruptMasterEnable := true
    mmu := { Mmu.new c1cart with interruptEnable := 1, wram := List.replicate 0x20 0 } }

/-- Concrete LCD state for C2: hblank interrupt enabled in STAT, LCDC
cleared so no rendering work obscures the scenario. -/
def c2lcd : Lcd := { Lcd.new with stat := 8, lcdc := 0 }

/-- A small all-zero cartridge used as concrete input for the C3 claim. -/
def c3cart : Mbc0 := Mbc0.new (List.replicate 0x80 0)

/-- Concrete square channel for C4: volume 15, envelope direction
increment, envelope period 1 so the next update fires. -/
def c4ch : SquareChannel :=
  { SquareChannel.new with vol := 15, volEnvIncrement := true, volCounter := Clock.new 1 }

/-- Concrete LCD for C5: the classic two-byte tile row 0x3C/0x7E written
into 0x8000/0x8001. -/
def c5lcd : Lcd :=
  (((Lcd.new.write 0x8000 0x3C).getD Lcd.new).write 0x8001 0x7E).getD Lcd.new

/-- The state reached by the first C5 write, written out explicitly. -/
def c5s1 : Lcd := Lcd.updateTileAt { Lcd.new with cdata := Lcd.new.cdata.set 0 0x3C } 0x8000

/-- The state reached by the second C5 write, written out explicitly. -/
def c5s2 : Lcd := Lcd.updateTileAt { c5s1 with cdata := c5s1.cdata.set 1 0x7E } 0x8000

/-- Concrete square channel for C6 part one: length counter in use and
expired, with a nonzero period and frequency so only inactivity silences
it. -/
def c6ch : SquareChannel :=
  { SquareChannel.new with useLen := true, len := 0, period := 5, frequency := 100 }

/-- Concrete square channel for C6 part two: frequency 2048. -/
def c6ch2 : SquareChannel := { SquareChannel.new with frequency := 2048 }

/-- A small all-zero cartridge used as concrete input for the C10 claim. -/
def c10cart : Mbc0 := Mbc0.new (List.replicate 0x80 0)

/-- Concrete CPU state for the C10 counterexample: halted, IME on, VBlank
enabled, SP pointing into ROM so the interrupt push raises a bus error. -/
def c10cpu : Cpu :=
  { Cpu.new c10cart with
    halted := true
    sp := 0x0002
    interruptMasterEnable := true
    mmu := { Mmu.new c10cart with interruptEnable := 1 } }

/-- Concrete CPU state for the C10 witness: halted with IME off. -/
def c10wcpu : Cpu := { Cpu.new c10cart with halted := true }

/-- Reading back the element just stored by `List.set` at an in-range
index. -/
theorem getD_set_eq {α : Type} (l : List α) (i : Nat) (x d : α) (h : i < l.length) :
    (l.set i x).getD i d = x := by
  induction l generalizing i with
  | nil => simp at h
  | cons hd tl ih =>
    cases i with
    | zero => rfl
    | succ n =>
      simp only [List.set, List.getD, List.get?]
      have := ih n (by simpa using h)
      simpa [List.getD] using this

/-- C3 counterexample: immediately after construction the AF register pair
reads 0, not the documented power-on value 0x01B0. -/
theorem c3_counterexample : (Cpu.new c3cart).readR16 Register16.AF ≠ 0x01B0 := by
  decide

/-- C3 (amended): after `Cpu::new` the program counter is 0x0100 and the
stack pointer 0xFFFE, but all eight 8-bit registers are zero, so AF, BC,
DE and HL all read 0x0000 rather than the documented power-on values. -/
theorem c3_amended_thm (cart : Mbc0) :
    (Cpu.new cart).pc = 0x100 ∧ (Cpu.new cart).sp = 0xFFFE ∧
    (Cpu.new cart).readR16 Register16.AF = 0 ∧ (Cpu.new cart).readR16 Register16.BC = 0 ∧
    (Cpu.new cart).readR16 Register16.DE = 0 ∧ (Cpu.new cart).readR16 Register16.HL = 0 :=
  ⟨rfl, rfl, rfl, rfl, rfl, rfl⟩

/-- C4 (code bug): a square channel at volume 15 with the envelope
direction set to increment is decremented to 14 by `volume_env_update` —
the `else if` arm runs although the direction is increment, contradicting
the saturating envelope the guard `vol < 15` intends. -/
theorem c4_code_bug_thm : c4ch.volumeEnvUpdate.vol = 14 := by
  decide

/-- C7 counterexample: reading the BGP register of a fresh LCD is an error
(`Err`), not the sentinel 0xFF, and writing LY is an error, not a silent
discard. -/
theorem c7_counterexample :
    Lcd.new.read 0xFF47 = none ∧ Lcd.new.write 0xFF44 0 = none ∧ Lcd.new.read 0xFF51 = none := by
  decide

/-- C7 (amended): reading the write-only BGP register returns an error, a
read of an unmapped LCD register (e.g. 0xFF51) returns an error, and a
write to the read-only LY register returns an error — the LCD state is
unchanged because the failed write produces no new state. -/
theorem c7_amended_thm (s : Lcd) (v : Nat) :
    s.read 0xFF47 = none ∧ s.read 0xFF51 = none ∧ s.write 0xFF44 v = none :=
  ⟨rfl, rfl, rfl⟩

/-- Restoring a cartridge's own SRAM snapshot is the identity. -/
theorem setSram_getSram (m : Mbc0) : m.setSram m.getSram = m := by
  cases m with
  | mk rom ram => simp [Mbc0.setSram, Mbc0.getSram, List.drop_length]

/-- C8 (confirmed): taking an SRAM snapshot and restoring that same byte
array yields a cartridge whose reads at every address equal the reads
before the snapshot. -/
theorem c8_thm (m : Mbc0) (a : Nat) : (m.setSram m.getSram).read a = m.read a := by
  rw [setSram_getSram]

/-- C10 counterexample: while halted with IME on and the interrupt enabled,
a bus error during the PC push (SP pointing into ROM) aborts interrupt
handling before the wake, so the CPU stays halted. -/
theorem c10_counterexample :
    (c10cpu.handleInterrupt Interrupt.vblank).1.halted = true ∧
    (c10cpu.handleInterrupt Interrupt.vblank).2 = false := by
  decide

/-- C10 (amended): when a pumped interrupt is not serviced — IME false or
the interrupt's IE bit disabled — `handle_interrupt` performs no push and
no PC/SP change and unconditionally clears the halted flag, returning the
state unchanged except for `halted := false`. -/
theorem c10_amended_thm (cpu : Cpu) (i : Interrupt)
    (h : (cpu.interruptMasterEnable && i.isEnabled cpu.mmu.interruptEnable) = false) :
    cpu.handleInterrupt i = ({ cpu with halted := false }, true) := by
  simp [Cpu.handleInterrupt, h]

/-- C10 witness: the amended theorem at a concrete halted CPU with IME
off. -/
theorem c10_witness :
    c10wcpu.handleInterrupt Interrupt.vblank = ({ c10wcpu with halted := false }, true) :=
  c10_amended_thm c10wcpu Interrupt.vblank rfl

/-- C6 (confirmed): a square channel silenced by its length counter
(length-enable set, length zero) samples as 0, and a frequency of 2048
makes the derived period 0, which also forces the sample to 0. -/
theorem c6_thm (s : SquareChannel) (c : Nat) :
    (s.useLen = true → s.len = 0 → (s.sample c).1 = 0) ∧
    (s.frequency = 2048 →
      s.updateFromFrequency.period = 0 ∧ (s.updateFromFrequency.sample c).1 = 0) := by
  constructor
  · intro h1 h2
    simp [SquareChannel.sample, SquareChannel.isActive, h1, h2]
  · intro hf
    constructor
    · simp [SquareChannel.updateFromFrequency, hf]
    · simp [SquareChannel.sample, SquareChannel.updateFromFrequency, hf]

/-- C6 witness: the theorem applied at a silenced channel and at a channel
whose frequency was driven to 2048. -/
theorem c6_witness :
    (c6ch.sample 3).1 = 0 ∧
    (c6ch2.updateFromFrequency.period = 0 ∧ (c6ch2.updateFromFrequency.sample 3).1 = 0) :=
  ⟨(c6_thm c6ch 3).1 rfl rfl, (c6_thm c6ch2 3).2 rfl⟩

/-- C1 counterexample: with IME on and VBlank enabled in IE, servicing the
pumped VBlank interrupt completes but leaves IME set (the claim says it is
cleared), leaves the cycle counter unchanged (the claim says +20), and
loads PC with the 16-bit value stored at 0x0040 — here 0 from a zeroed
ROM — rather than jumping to the vector address 0x0040. -/
theorem c1_counterexample :
    (c1cpu.handleInterrupt Interrupt.vblank).2 = true ∧
    (c1cpu.handleInterrupt Interrupt.vblank).1.interruptMasterEnable = true ∧
    (c1cpu.handleInterrupt Interrupt.vblank).1.cycle = 0 ∧
    (c1cpu.handleInterrupt Interrupt.vblank).1.pc = 0 := by
  decide

/-- C1 (amended): `handle_interrupt` services the single interrupt returned
by the LCD pump (there is no selection over IF, no IF bit to clear and no
Serial vector): when IME is set and the interrupt's IE bit is enabled and
the memory operations succeed, it pushes PC at SP−2 and sets PC to the
16-bit value read from the vector address (0x40 VBlank, 0x48 LCDC, 0x50
Timer, 0x60 Controller); IME stays set, the cycle counter does not
advance, and the halted flag is cleared. -/
theorem c1_amended_thm (cpu : Cpu) (i : Interrupt)
    (hime : cpu.interruptMasterEnable = true)
    (hen : i.isEnabled cpu.mmu.interruptEnable = true)
    (hok : (cpu.handleInterrupt i).2 = true) :
    (cpu.handleInterrupt i).1.sp = (cpu.sp + 65534) % 65536 ∧
    (cpu.handleInterrupt i).1.interruptMasterEnable = true ∧
    (cpu.handleInterrupt i).1.cycle = cpu.cycle ∧
    (cpu.handleInterrupt i).1.halted = false ∧
    (cpu.mmu.write16 ((cpu.sp + 65534) % 65536) cpu.pc).2 = true ∧
    (cpu.handleInterrupt i).1.mmu = (cpu.mmu.write16 ((cpu.sp + 65534) % 65536) cpu.pc).1 ∧
    (cpu.handleInterrupt i).1.mmu.read16 i.tableAddress = some (cpu.handleInterrupt i).1.pc := by
  rcases hw : cpu.mmu.write16 ((cpu.sp + 65534) % 65536) cpu.pc with ⟨m1, ok⟩
  cases ok with
  | false =>
    exfalso
    simp only [Cpu.handleInterrupt, hime, hen, Bool.and_self, if_true, hw] at hok
    simp at hok
  | true =>
    rcases hr : m1.read16 i.tableAddress with _ | v
    · exfalso
      simp only [Cpu.handleInterrupt, hime, hen, Bool.and_self, if_true, hw, hr] at hok
      simp at hok
    · simp [Cpu.handleInterrupt, hime, hen, hw, hr]

/-- C1 witness: the amended theorem at a concrete serviced VBlank
interrupt. -/
theorem c1_witness :
    c1cpu.interruptMasterEnable = true ∧
    Interrupt.vblank.isEnabled c1cpu.mmu.interruptEnable = true ∧
    (c1cpu.handleInterrupt Interrupt.vblank).2 = true ∧
    ((c1cpu.handleInterrupt Interrupt.vblank).1.sp = (c1cpu.sp + 65534) % 65536 ∧
      (c1cpu.handleInterrupt Interrupt.vblank).1.interruptMasterEnable = true ∧
      (c1cpu.handleInterrupt Interrupt.vblank).1.cycle = c1cpu.cycle ∧
      (c1cpu.handleInterrupt Interrupt.vblank).1.halted = false ∧
      (c1cpu.mmu.write16 ((c1cpu.sp + 65534) % 65536) c1cpu.pc).2 = true ∧
      (c1cpu.handleInterrupt Interrupt.vblank).1.mmu
          = (c1cpu.mmu.write16 ((c1cpu.sp + 65534) % 65536) c1cpu.pc).1 ∧
      (c1cpu.handleInterrupt Interrupt.vblank).1.mmu.read16 Interrupt.vblank.tableAddress
          = some (c1cpu.handleInterrupt Interrupt.vblank).1.pc) :=
  ⟨rfl, by decide, by decide,
    c1_amended_thm c1cpu Interrupt.vblank rfl (by decide) (by decide)⟩

/-- Reading any other index of a `List.set` is unchanged. -/
theorem getD_set_ne {α : Type} (l : List α) (i j : Nat) (x d : α) (h : i ≠ j) :
    (l.set i x).getD j d = l.getD j d := by
  induction l generalizing i j with
  | nil => rfl
  | cons hd tl ih =>
    cases i with
    | zero =>
      cases j with
      | zero => exact absurd rfl h
      | succ m => rfl
    | succ n =>
      cases j with
      | zero => rfl
      | succ m =>
        simpa [List.getD] using ih n m (by omega)

/-- Reading an in-range index of `List.replicate`. -/
theorem getD_replicate {α : Type} (n i : Nat) (a d : α) (h : i < n) :
    (List.replicate n a).getD i d = a := by
  induction n generalizing i with
  | zero => omega
  | succ m ih =>
    cases i with
    | zero => rfl
    | succ k => simpa [List.replicate, List.getD] using ih k (by omega)

/-- The tile-data arm of `Lcd::write`: an in-range character-data write
stores the byte and immediately refreshes the decoded tile at the aligned
address. -/
theorem write_chardat (s : Lcd) (a v : Nat) (ha : 0x8000 ≤ a) (hb : a < 0x9800)
    (hlt : a - 0x8000 < s.cdata.length) :
    s.write a v
      = some (Lcd.updateTileAt { s with cdata := s.cdata.set (a - 0x8000) v } (a - a % 2)) := by
  have hno1 : ¬(0x9800 ≤ a ∧ a < 0x9C00) := by omega
  have hno2 : ¬(0x9C00 ≤ a ∧ a < 0xA000) := by omega
  have hyes : 0x8000 ≤ a ∧ a < 0x9800 := ⟨ha, hb⟩
  simp only [Lcd.write, if_neg hno1, if_neg hno2, if_pos hyes, ramWrite, if_pos hlt]
  rfl

/-- C5 (amended): every byte written into VRAM tile data 0x8000–0x97FF
refreshes the decoded tile row as part of the write: for a well-formed LCD
state the write succeeds and the decoded row of the affected tile equals
the plane decoding of the two bytes now stored; in particular writing
0x3C/0x7E to 0x8000/0x8001 makes tile 0's row 0 equal [0,2,3,3,3,3,2,0],
not [0,3,3,3,3,3,3,0] as the claim states. -/
theorem c5_amended_thm (s : Lcd) (a v : Nat)
    (ha : 0x8000 ≤ a) (hb : a < 0x9800)
    (hc : s.cdata.length = 0x1800)
    (ht : s.tiles.length = 384)
    (hr : ((s.tiles.getD ((a - a % 2 - 0x8000) / 16) MonoTile.new).rows).length = 8) :
    ∃ t, s.write a v = some t ∧
      (t.tiles.getD ((a - a % 2 - 0x8000) / 16) MonoTile.new).readRow ((a - a % 2 - 0x8000) % 16 / 2)
        = decodeTileRow (t.cdata.getD (a - a % 2 - 0x8000) 0)
            (t.cdata.getD (a - a % 2 - 0x8000 + 1) 0) := by
  have hlt : a - 0x8000 < s.cdata.length := by omega
  refine ⟨_, write_chardat s a v ha hb hlt, ?_⟩
  simp only [Lcd.updateTileAt, MonoTile.readRow, MonoTile.updateRow]
  have hdiv : (a - a % 2 - 0x8000) / 16 < 384 := by omega
  rw [getD_set_eq _ _ _ _ (by simpa [ht] using hdiv)]
  exact getD_set_eq _ _ _ _ (by rw [hr]; omega)

/-- C5 counterexample: writing 0x3C to 0x8000 and 0x7E to 0x8001 succeeds
and decodes tile 0's row 0 to [0,2,3,3,3,3,2,0] under the two-byte plane
decoding, not the [0,3,3,3,3,3,3,0] the claim states. -/
theorem c5_counterexample :
    (Lcd.new.write 0x8000 0x3C).isSome = true ∧
    (((Lcd.new.write 0x8000 0x3C).getD Lcd.new).write 0x8001 0x7E).isSome = true ∧
    (c5lcd.tiles.getD 0 MonoTile.new).readRow 0 = [0, 2, 3, 3, 3, 3, 2, 0] ∧
    (c5lcd.tiles.getD 0 MonoTile.new).readRow 0 ≠ [0, 3, 3, 3, 3, 3, 3, 0] := by
  have hlen : Lcd.new.cdata.length = 6144 := List.length_replicate _ _
  have hlen1 : c5s1.cdata.length = 6144 := by
    show (Lcd.new.cdata.set 0 0x3C).length = 6144
    rw [List.length_set, hlen]
  have h1 : Lcd.new.write 0x8000 0x3C = some c5s1 := by
    have h := write_chardat Lcd.new 0x8000 0x3C (by omega) (by omega) (by rw [hlen]; omega)
    norm_num at h
    exact h
  have h2 : c5s1.write 0x8001 0x7E = some c5s2 := by
    have h := write_chardat c5s1 0x8001 0x7E (by omega) (by omega) (by rw [hlen1]; omega)
    norm_num at h
    exact h
  have hch : c5lcd = c5s2 := by
    unfold c5lcd
    rw [h1]
    simp only [Option.getD_some]
    rw [h2]
    rfl
  refine ⟨?_, ?_, ?_, ?_⟩
  · rw [h1]; rfl
  · rw [h1]
    simp only [Option.getD_some]
    rw [h2]
    rfl
  · rw [hch]; decide
  · rw [hch]; decide

/-- C5 witness: the amended theorem at the concrete 0x3C write into a fresh
LCD. -/
theorem c5_witness :
    0x8000 ≤ 0x8000 ∧ (0x8000 : Nat) < 0x9800 ∧ Lcd.new.cdata.length = 0x1800 ∧
    Lcd.new.tiles.length = 384 ∧
    ((Lcd.new.tiles.getD ((0x8000 - 0x8000 % 2 - 0x8000) / 16) MonoTile.new).rows).length = 8 ∧
    (∃ t, Lcd.new.write 0x8000 0x3C = some t ∧
      (t.tiles.getD ((0x8000 - 0x8000 % 2 - 0x8000) / 16) MonoTile.new).readRow
          ((0x8000 - 0x8000 % 2 - 0x8000) % 16 / 2)
        = decodeTileRow (t.cdata.getD (0x8000 - 0x8000 % 2 - 0x8000) 0)
            (t.cdata.getD (0x8000 - 0x8000 % 2 - 0x8000 + 1) 0)) :=
  ⟨by decide, by decide, List.length_replicate _ _, List.length_replicate _ _,
    by decide,
    c5_amended_thm Lcd.new 0x8000 0x3C (by decide) (by decide) (List.length_replicate _ _)
      (List.length_replicate _ _) (by decide)⟩

/-- Writing the back framebuffer touches neither LY, STAT, the buffer
index, nor the vblank/mode10 timers. -/
theorem lcdCore_setBackFb (s : Lcd) (fb : List (List Pixel)) :
    lcdCore (s.setBackFb fb) = lcdCore s := by
  unfold Lcd.setBackFb
  split <;> rfl

/-- One sprite pixel preserves the non-framebuffer LCD state. -/
theorem lcdCore_renderObjPixel (st : Lcd) (o : Obj) (row : List Nat) (fy x : Nat) :
    lcdCore (st.renderObjPixel o row fy x) = lcdCore st := by
  simp only [Lcd.renderObjPixel]
  repeat' split
  all_goals first | rfl | exact lcdCore_setBackFb _ _

/-- Folding a core-preserving renderer over a list preserves the core. -/
theorem lcdCore_foldl {β : Type} (g : Lcd → β → Lcd)
    (h : ∀ st x, lcdCore (g st x) = lcdCore st) :
    ∀ (l : List β) (s : Lcd), lcdCore (l.foldl g s) = lcdCore s := by
  intro l
  induction l with
  | nil => intro s; rfl
  | cons a t ih =>
    intro s
    rw [List.foldl_cons, ih, h]

/-- One sprite row preserves the non-framebuffer LCD state. -/
theorem lcdCore_renderObjRow (st : Lcd) (o : Obj) (ch hiY y : Nat) :
    lcdCore (st.renderObjRow o ch hiY y) = lcdCore st := by
  simp only [Lcd.renderObjRow]
  split
  · rfl
  · exact lcdCore_foldl _ (fun st2 x => lcdCore_renderObjPixel st2 _ _ _ _) _ _

/-- One sprite preserves the non-framebuffer LCD state. -/
theorem lcdCore_renderObj (st : Lcd) (o : Obj) :
    lcdCore (st.renderObj o) = lcdCore st := by
  simp only [Lcd.renderObj]
  exact lcdCore_foldl _ (fun st2 y => lcdCore_renderObjRow st2 _ _ _ _) _ _

/-- The sprite pass preserves the non-framebuffer LCD state. -/
theorem lcdCore_renderOamRow (s : Lcd) : lcdCore s.renderOamRow = lcdCore s := by
  simp only [Lcd.renderOamRow]
  split
  · rfl
  · exact lcdCore_foldl _ (fun st i => lcdCore_renderObj st _) _ _

/-- The background pass preserves the non-framebuffer LCD state. -/
theorem lcdCore_renderBackgroundRow (s : Lcd) :
    lcdCore s.renderBackgroundRow = lcdCore s := by
  simp only [Lcd.renderBackgroundRow]
  split
  · rfl
  · exact lcdCore_setBackFb _ _

/-- The window pass preserves the non-framebuffer LCD state. -/
theorem lcdCore_renderWindowRow (s : Lcd) :
    lcdCore s.renderWindowRow = lcdCore s := by
  simp only [Lcd.renderWindowRow]
  split
  · rfl
  · split
    · rfl
    · exact lcdCore_setBackFb _ _

/-- The full scanline render preserves the non-framebuffer LCD state. -/
theorem lcdCore_renders (s : Lcd) :
    lcdCore s.renderBackgroundRow.renderWindowRow.renderOamRow = lcdCore s := by
  rw [lcdCore_renderOamRow, lcdCore_renderWindowRow, lcdCore_renderBackgroundRow]

/-- Unpacking an `lcdCore` equality into its components. -/
theorem lcdCore_eq_parts {s t : Lcd} (h : lcdCore s = lcdCore t) :
    s.ly = t.ly ∧ s.stat = t.stat ∧ s.fbi = t.fbi ∧
    s.vblankTimer = t.vblankTimer ∧ s.mode10Timer = t.mode10Timer := by
  simp only [lcdCore, Prod.mk.injEq] at h
  exact ⟨h.1, h.2.1, h.2.2.1, h.2.2.2.1, h.2.2.2.2⟩

/-- Setting the STAT mode bits to 00 keeps the hblank-interrupt-enable
bit. -/
theorem statMask_and8 (x : Nat) : ((x &&& 252) ||| 0) &&& 8 = x &&& 8 := by
  have h252 : (252 &&& 8 : Nat) = 8 := by decide
  rw [Nat.or_zero, Nat.and_assoc, h252]

/-- `do_hblank_start` changes only the back framebuffer and the STAT mode
bits: LY, the buffer index, the vblank/mode10 timers, and the
hblank-interrupt-enable bit of STAT are preserved. -/
theorem doHblankStart_parts (s : Lcd) (c : Nat) :
    (s.doHblankStart c).ly = s.ly ∧ (s.doHblankStart c).fbi = s.fbi ∧
    (s.doHblankStart c).vblankTimer = s.vblankTimer ∧
    (s.doHblankStart c).mode10Timer = s.mode10Timer ∧
    (s.doHblankStart c).stat &&& 8 = s.stat &&& 8 := by
  simp only [Lcd.doHblankStart]
  split
  · split
    · obtain ⟨hly, hstat, hfbi, hvb, hm10⟩ := lcdCore_eq_parts (lcdCore_renders s)
      exact ⟨hly, hfbi, hvb, hm10, by rw [hstat]; exact statMask_and8 _⟩
    · exact ⟨rfl, rfl, rfl, rfl, statMask_and8 _⟩
  · exact ⟨rfl, rfl, rfl, rfl, rfl⟩

/-- C2 counterexample: at cycle 65720 both the hblank timer and the vblank
timer of this state have a rising edge, the hblank interrupt is enabled,
and the pump returns the LCDC interrupt from the hblank arm — but the
framebuffer swap is not applied (`fbi` unchanged) and the vblank timer is
not even updated in this call. -/
theorem c2_counterexample :
    (c2lcd.hblankTimer.update 65720).2 = some TimerEvent.rising ∧
    (c2lcd.vblankTimer.update 65720).2 = some TimerEvent.rising ∧
    (c2lcd.pumpCycle 65720).1 = some Interrupt.lcdc ∧
    (c2lcd.pumpCycle 65720).2.fbi = c2lcd.fbi ∧
    (c2lcd.pumpCycle 65720).2.vblankTimer = c2lcd.vblankTimer := by
  decide

/-- C2 (amended): when the hblank timer's rising edge raises an enabled
hblank interrupt on a visible line, `pump_cycle` returns it immediately;
the state effects of that edge are applied, but the mode10 and vblank
timers are not updated in that call, so the state effects of coinciding
mode-10 or vblank edges — including the framebuffer swap — are deferred to
a later pump call rather than applied in this one. -/
theorem c2_amended_thm (s : Lcd) (c : Nat)
    (h1 : (s.hblankTimer.update c).2 = some TimerEvent.rising)
    (h2 : s.stat &&& 8 ≠ 0)
    (h3 : s.ly < 144) :
    (s.pumpCycle c).1 = some Interrupt.lcdc ∧
    (s.pumpCycle c).2.vblankTimer = s.vblankTimer ∧
    (s.pumpCycle c).2.mode10Timer = s.mode10Timer ∧
    (s.pumpCycle c).2.fbi = s.fbi := by
  rcases hu : s.hblankTimer.update c with ⟨ht, he⟩
  have he' : he = some TimerEvent.rising := by rw [hu] at h1; exact h1
  subst he'
  simp only [Lcd.pumpCycle, hu]
  obtain ⟨hly, hfbi, hvb, hm10, hstat⟩ := doHblankStart_parts { s with hblankTimer := ht } c
  have hcond : (Lcd.doHblankStart { s with hblankTimer := ht } c).stat &&& 8 ≠ 0 ∧
      (Lcd.doHblankStart { s with hblankTimer := ht } c).ly < 144 := by
    refine ⟨?_, ?_⟩
    · rw [hstat]; exact h2
    · rw [hly]; exact h3
  rw [if_pos hcond]
  exact ⟨rfl, hvb, hm10, hfbi⟩

/-- C2 witness: the amended theorem at the concrete coinciding-edge
state. -/
theorem c2_witness :
    (c2lcd.hblankTimer.update 65720).2 = some TimerEvent.rising ∧
    c2lcd.stat &&& 8 ≠ 0 ∧ c2lcd.ly < 144 ∧
    ((c2lcd.pumpCycle 65720).1 = some Interrupt.lcdc ∧
      (c2lcd.pumpCycle 65720).2.vblankTimer = c2lcd.vblankTimer ∧
      (c2lcd.pumpCycle 65720).2.mode10Timer = c2lcd.mode10Timer ∧
      (c2lcd.pumpCycle 65720).2.fbi = c2lcd.fbi) :=
  ⟨by decide, by decide, by decide,
    c2_amended_thm c2lcd 65720 (by decide) (by decide) (by decide)⟩

end J2gbc
